import Mathlib

/-!
Verification of the staking-registry core of this repository: the `Entity`
activation state machine and balance operations
(`src/registry/src/accounts/entity.rs`), the stake-intent access-control gate
(`src/registry/src/access_control.rs`, `src/registry/program/src/stake_intent.rs`)
and the stake-intent state transition (`src/registry/program/src/stake_intent.rs`).

All `u64` arithmetic is embedded as `Nat` arithmetic modulo `2^64`, matching the
release-mode (wrapping, unchecked) semantics of the deployed Rust program; the
specification itself records that the reference code has no overflow checks and
performs unchecked subtraction on balances.
-/

namespace Registry

/-- The modulus of 64-bit machine words, `2^64`. -/
def W : Nat := 18446744073709551616

/-- Wrapping `u64` addition, the release-mode semantics of Rust `+` on `u64`. -/
def u64add (a b : Nat) : Nat := (a + b) % W

/-- Wrapping `u64` multiplication, the release-mode semantics of Rust `*` on `u64`. -/
def u64mul (a b : Nat) : Nat := (a * b) % W

/-- Wrapping `u64` subtraction, the release-mode semantics of Rust `-` on `u64`:
for `a, b < 2^64` this is two's-complement wraparound `(a + 2^64 - b) % 2^64`. -/
def u64sub (a b : Nat) : Nat := (a + (W - b % W)) % W

/-- Account addresses (`Pubkey` in the source) are embedded as plain
identifiers; only equality of keys is ever used by the code under scrutiny. -/
abbrev Pubkey := Nat

/-- The clock sysvar; the registry code reads only its `slot` field. -/
structure Clock where
  slot : Nat
deriving DecidableEq

/-- Modelled from the spec: the `Registrar` record is declared in a file of
this repository that is not under `src/` (only its field uses appear in
`src/registry/src/access_control.rs` and the tests). Fields follow section 3 of
the specification: `initialized`, `authority`, the two custodial vault
identifiers, `reward_activation_threshold` and `deactivation_timelock_premium`. -/
structure Registrar where
  initialized : Bool
  authority : Pubkey
  vault : Pubkey
  mega_vault : Pubkey
  reward_activation_threshold : Nat
  deactivation_timelock_premium : Nat
deriving DecidableEq

/-- Modelled from the spec: `Registrar::deactivation_timelock` is called by
`Entity::transition_activation_if_needed` but its body is not under `src/`.
The specification describes it as "the timelock window derived from
`deactivation_timelock_premium`", and its worked example uses
`deactivation_timelock_premium = 1000` with `deactivation_timelock() = 1000`,
so the window is embedded as the premium itself. -/
def Registrar.deactivation_timelock (r : Registrar) : Nat :=
  r.deactivation_timelock_premium

/-- Per-account balance record, from `src/registry/src/accounts/entity.rs`. -/
structure Balances where
  amount : Nat
  mega_amount : Nat
  stake_intent : Nat
  mega_stake_intent : Nat
  pending_withdrawals : Nat
  mega_pending_withdrawals : Nat
deriving DecidableEq

/-- The activation finite state machine of an entity, from
`src/registry/src/accounts/entity.rs`. -/
inductive EntityState where
  | Inactive : EntityState
  | PendingDeactivation (deactivation_start_slot : Nat) : EntityState
  | Active : EntityState
deriving DecidableEq

/-- Kind of stake backing an entity, from `src/registry/src/accounts/entity.rs`. -/
inductive StakeKind where
  | Voting : StakeKind
  | Delegated : StakeKind
deriving DecidableEq

/-- The `Entity` account record, from `src/registry/src/accounts/entity.rs`. -/
structure Entity where
  initialized : Bool
  registrar : Pubkey
  leader : Pubkey
  capabilities : Nat
  stake_kind : StakeKind
  balances : Balances
  generation : Nat
  state : EntityState
deriving DecidableEq

/-- `Entity::amount_equivalent` from `src/registry/src/accounts/entity.rs`:
`self.balances.amount + self.balances.mega_amount * 1_000_000`. -/
def Entity.amount_equivalent (e : Entity) : Nat :=
  u64add e.balances.amount (u64mul e.balances.mega_amount 1000000)

/-- `Entity::stake_intent_equivalent` from `src/registry/src/accounts/entity.rs`:
`self.balances.stake_intent + self.balances.mega_stake_intent * 1_000_000`. -/
def Entity.stake_intent_equivalent (e : Entity) : Nat :=
  u64add e.balances.stake_intent (u64mul e.balances.mega_stake_intent 1000000)

/-- `Entity::activation_amount` from `src/registry/src/accounts/entity.rs`:
`self.amount_equivalent() + self.stake_intent_equivalent()`. -/
def Entity.activation_amount (e : Entity) : Nat :=
  u64add e.amount_equivalent e.stake_intent_equivalent

/-- `Entity::transition_activation_if_needed` from
`src/registry/src/accounts/entity.rs`, translated branch for branch. -/
def Entity.transition_activation_if_needed (e : Entity) (registrar : Registrar)
    (clock : Clock) : Entity :=
  match e.state with
  | EntityState.Inactive =>
      if e.activation_amount ≥ registrar.reward_activation_threshold then
        { e with state := EntityState.Active, generation := u64add e.generation 1 }
      else
        e
  | EntityState.PendingDeactivation deactivation_start_slot =>
      if clock.slot > u64add deactivation_start_slot registrar.deactivation_timelock then
        { e with state := EntityState.Inactive }
      else if e.activation_amount ≥ registrar.reward_activation_threshold then
        { e with state := EntityState.Active }
      else
        e
  | EntityState.Active =>
      if e.activation_amount < registrar.reward_activation_threshold then
        { e with state := EntityState.PendingDeactivation clock.slot }
      else
        e

/-- `Entity::add_stake_intent` from `src/registry/src/accounts/entity.rs`. -/
def Entity.add_stake_intent (e : Entity) (amount : Nat) (mega : Bool)
    (registrar : Registrar) (clock : Clock) : Entity :=
  let e1 :=
    if mega then
      { e with balances :=
          { e.balances with
              mega_stake_intent := u64add e.balances.mega_stake_intent amount } }
    else
      { e with balances :=
          { e.balances with
              stake_intent := u64add e.balances.stake_intent amount } }
  e1.transition_activation_if_needed registrar clock

/-- `Entity::sub_stake_intent` from `src/registry/src/accounts/entity.rs`;
the subtraction is the unchecked (wrapping) `-=` of the source. -/
def Entity.sub_stake_intent (e : Entity) (amount : Nat) (mega : Bool)
    (registrar : Registrar) (clock : Clock) : Entity :=
  let e1 :=
    if mega then
      { e with balances :=
          { e.balances with
              mega_stake_intent := u64sub e.balances.mega_stake_intent amount } }
    else
      { e with balances :=
          { e.balances with
              stake_intent := u64sub e.balances.stake_intent amount } }
  e1.transition_activation_if_needed registrar clock

/-- `Entity::add_stake` from `src/registry/src/accounts/entity.rs`; its body
adds to the stake-intent fields, exactly like `Entity::add_stake_intent`. -/
def Entity.add_stake (e : Entity) (amount : Nat) (is_mega : Bool)
    (registrar : Registrar) (clock : Clock) : Entity :=
  let e1 :=
    if is_mega then
      { e with balances :=
          { e.balances with
              mega_stake_intent := u64add e.balances.mega_stake_intent amount } }
    else
      { e with balances :=
          { e.balances with
              stake_intent := u64add e.balances.stake_intent amount } }
  e1.transition_activation_if_needed registrar clock

/-- `Entity::transfer_pending_withdrawal` from
`src/registry/src/accounts/entity.rs`; the subtraction is the unchecked
(wrapping) `-=` of the source. -/
def Entity.transfer_pending_withdrawal (e : Entity) (amount : Nat) (mega : Bool)
    (registrar : Registrar) (clock : Clock) : Entity :=
  let e1 :=
    if mega then
      { e with balances :=
          { e.balances with
              mega_amount := u64sub e.balances.mega_amount amount,
              mega_pending_withdrawals :=
                u64add e.balances.mega_pending_withdrawals amount } }
    else
      { e with balances :=
          { e.balances with
              amount := u64sub e.balances.amount amount,
              pending_withdrawals :=
                u64add e.balances.pending_withdrawals amount } }
  e1.transition_activation_if_needed registrar clock

/-- Modelled from the spec: one sub-ledger of a member's `books` (the `Member`
record is declared in a file of this repository that is not under `src/`).
Per section 3 of the specification each sub-ledger is
`{ owner: Identity, balances: Balances }`. -/
structure Book where
  owner : Pubkey
  balances : Balances
deriving DecidableEq

/-- Modelled from the spec: the `books` field of a `Member`, holding the two
sub-ledgers `main` (beneficiary-controlled) and `delegate`. -/
structure MemberBooks where
  main : Book
  delegate : Book
deriving DecidableEq

/-- Modelled from the spec: the `Member` account record, declared outside
`src/`; fields follow section 3 of the specification and the field accesses in
`src/registry/src/access_control.rs` and `src/registry/tests/lifecycle.rs`. -/
structure Member where
  initialized : Bool
  entity : Pubkey
  beneficiary : Pubkey
  books : MemberBooks
deriving DecidableEq

/-- Modelled from the spec: adds `amount` to the stake-intent field of one
sub-ledger, selected by `is_mega` ("call
`member.books[selected by is_delegate].balances.stake_intent(_mega) += amount`"). -/
def Book.add_intent (b : Book) (amount : Nat) (is_mega : Bool) : Book :=
  if is_mega then
    { b with balances :=
        { b.balances with
            mega_stake_intent := u64add b.balances.mega_stake_intent amount } }
  else
    { b with balances :=
        { b.balances with
            stake_intent := u64add b.balances.stake_intent amount } }

/-- Modelled from the spec: `Member::add_stake_intent`, whose body is not under
`src/`; section 4.3 of the specification states that on transfer success the
handler mutates `member.books[selected by is_delegate].balances.stake_intent(_mega)`
by `+= amount` and touches nothing else of the member record. -/
def Member.add_stake_intent (m : Member) (amount : Nat) (is_mega is_delegate : Bool) :
    Member :=
  if is_delegate then
    { m with books :=
        { m.books with delegate := m.books.delegate.add_intent amount is_mega } }
  else
    { m with books :=
        { m.books with main := m.books.main.add_intent amount is_mega } }

/-- The parts of a Solana `AccountInfo` read by the registry's access-control
code: the account's address, the program that owns it, and whether it signed. -/
structure AccInfo where
  key : Pubkey
  owner : Pubkey
  is_signer : Bool
deriving DecidableEq

/-- A registrar account: its `AccountInfo` plus the `Registrar` record its data
deserializes to (deserialization itself is out of scope per section 1). -/
structure RegistrarAcc where
  info : AccInfo
  data : Registrar
deriving DecidableEq

/-- An entity account: its `AccountInfo` plus its deserialized `Entity`. -/
structure EntityAcc where
  info : AccInfo
  data : Entity
deriving DecidableEq

/-- A member account: its `AccountInfo` plus its deserialized `Member`. -/
structure MemberAcc where
  info : AccInfo
  data : Member
deriving DecidableEq

/-- The parts of an SPL token account used here (the vault's balance). -/
structure TokenAccount where
  amount : Nat
deriving DecidableEq

/-- A vault token account: its `AccountInfo` plus its deserialized data. -/
structure VaultAcc where
  info : AccInfo
  data : TokenAccount
deriving DecidableEq

/-- A clock sysvar account: its `AccountInfo` plus the `Clock` it carries. -/
structure ClockAcc where
  info : AccInfo
  data : Clock
deriving DecidableEq

/-- An error reported by the external fund-ledger transfer, left abstract. -/
structure TransferError where
  code : Nat
deriving DecidableEq

/-- The `RegistryErrorCode` variants referenced by the code under `src/`
(the enum itself is declared outside `src/`; the variant names below are
exactly those used in `src/registry/src/access_control.rs` and
`src/registry/program/src/stake_intent.rs`). -/
inductive RegistryErrorCode where
  | Unauthorized : RegistryErrorCode
  | InvalidAccountOwner : RegistryErrorCode
  | NotInitialized : RegistryErrorCode
  | EntityRegistrarMismatch : RegistryErrorCode
  | InvalidOwner : RegistryErrorCode
  | MemberEntityMismatch : RegistryErrorCode
  | MemberDelegateMismatch : RegistryErrorCode
  | MemberBeneficiaryMismatch : RegistryErrorCode
  | RegistrarVaultMismatch : RegistryErrorCode
  | InvalidClockSysvar : RegistryErrorCode
deriving DecidableEq

/-- A `RegistryError`: either a registry error code, or an error propagated
from the external token transfer. -/
inductive RegistryError where
  | code (c : RegistryErrorCode) : RegistryError
  | transfer (t : TransferError) : RegistryError
deriving DecidableEq

namespace access_control

/-- `access_control::registrar` from `src/registry/src/access_control.rs`. -/
def registrar (acc_info : RegistrarAcc) (program_id : Pubkey) :
    Except RegistryError Registrar :=
  if acc_info.info.owner ≠ program_id then
    Except.error (RegistryError.code RegistryErrorCode.InvalidAccountOwner)
  else if ¬ acc_info.data.initialized then
    Except.error (RegistryError.code RegistryErrorCode.NotInitialized)
  else
    Except.ok acc_info.data

/-- `access_control::entity` from `src/registry/src/access_control.rs`. -/
def entity (acc_info : EntityAcc) (registrar_acc_info : AccInfo)
    (program_id : Pubkey) : Except RegistryError Entity :=
  if acc_info.info.owner ≠ program_id then
    Except.error (RegistryError.code RegistryErrorCode.InvalidAccountOwner)
  else if ¬ acc_info.data.initialized then
    Except.error (RegistryError.code RegistryErrorCode.NotInitialized)
  else if acc_info.data.registrar ≠ registrar_acc_info.key then
    Except.error (RegistryError.code RegistryErrorCode.EntityRegistrarMismatch)
  else
    Except.ok acc_info.data

/-- `access_control::member` from `src/registry/src/access_control.rs`; note
the owner check fails with `InvalidOwner` (not `InvalidAccountOwner`). -/
def member (acc_info : MemberAcc) (entity_acc_info : AccInfo)
    (authority_acc_info : AccInfo) (is_delegate : Bool) (program_id : Pubkey) :
    Except RegistryError Member :=
  if acc_info.info.owner ≠ program_id then
    Except.error (RegistryError.code RegistryErrorCode.InvalidOwner)
  else if ¬ acc_info.data.initialized then
    Except.error (RegistryError.code RegistryErrorCode.NotInitialized)
  else if acc_info.data.entity ≠ entity_acc_info.key then
    Except.error (RegistryError.code RegistryErrorCode.MemberEntityMismatch)
  else if is_delegate ∧ authority_acc_info.key ≠ acc_info.data.books.delegate.owner then
    Except.error (RegistryError.code RegistryErrorCode.MemberDelegateMismatch)
  else if ¬ is_delegate ∧ authority_acc_info.key ≠ acc_info.data.beneficiary then
    Except.error (RegistryError.code RegistryErrorCode.MemberBeneficiaryMismatch)
  else
    Except.ok acc_info.data

/-- `access_control::vault` from `src/registry/src/access_control.rs`. -/
def vault (acc_info : VaultAcc) (registrar : Registrar) (is_mega : Bool) :
    Except RegistryError TokenAccount :=
  if is_mega ∧ registrar.mega_vault ≠ acc_info.info.key then
    Except.error (RegistryError.code RegistryErrorCode.RegistrarVaultMismatch)
  else if ¬ is_mega ∧ registrar.vault ≠ acc_info.info.key then
    Except.error (RegistryError.code RegistryErrorCode.RegistrarVaultMismatch)
  else
    Except.ok acc_info.data

/-- `access_control::clock` from `src/registry/src/access_control.rs`; the
well-known clock sysvar address is passed in explicitly. -/
def clock (sysvar_clock_id : Pubkey) (acc_info : ClockAcc) :
    Except RegistryError Clock :=
  if acc_info.info.key ≠ sysvar_clock_id then
    Except.error (RegistryError.code RegistryErrorCode.InvalidClockSysvar)
  else
    Except.ok acc_info.data

end access_control

namespace stake_intent

/-- The `AccessControlRequest` of `src/registry/program/src/stake_intent.rs`,
with each account reference carrying its deserialized record. -/
structure AccessControlRequest where
  registrar_acc : RegistrarAcc
  program_id : Pubkey
  depositor_tok_authority : AccInfo
  depositor_tok : AccInfo
  member_acc : MemberAcc
  member_authority : AccInfo
  entity_acc : EntityAcc
  token_program : AccInfo
  vault_acc : VaultAcc
  is_delegate : Bool
  is_mega : Bool
deriving DecidableEq

/-- The `access_control` function of `src/registry/program/src/stake_intent.rs`:
signer check, then registrar, entity, member and vault validation, in that
order, each short-circuiting via `?`. -/
def access_control (req : AccessControlRequest) : Except RegistryError Unit :=
  if ¬ req.depositor_tok_authority.is_signer then
    Except.error (RegistryError.code RegistryErrorCode.Unauthorized)
  else
    match Registry.access_control.registrar req.registrar_acc req.program_id with
    | Except.error e => Except.error e
    | Except.ok registrar =>
      match Registry.access_control.entity req.entity_acc req.registrar_acc.info
          req.program_id with
      | Except.error e => Except.error e
      | Except.ok _ =>
        match Registry.access_control.member req.member_acc req.entity_acc.info
            req.member_authority req.is_delegate req.program_id with
        | Except.error e => Except.error e
        | Except.ok _ =>
          match Registry.access_control.vault req.vault_acc registrar req.is_mega with
          | Except.error e => Except.error e
          | Except.ok _ => Except.ok ()

/-- The `state_transition` function of `src/registry/program/src/stake_intent.rs`.
The external token transfer (an `invoke_signed` of an SPL transfer, issued
before any local mutation) is embedded as its outcome `transferResult`; on
transfer failure the error propagates via `?` before the member or entity is
touched. The function returns the result together with the member and entity
records as left by the call. -/
def state_transition (transferResult : Except TransferError Unit) (amount : Nat)
    (is_mega is_delegate : Bool) (registrar : Registrar) (clock : Clock)
    (member : Member) (entity : Entity) :
    Except RegistryError Unit × Member × Entity :=
  match transferResult with
  | Except.error t => (Except.error (RegistryError.transfer t), member, entity)
  | Except.ok _ =>
      (Except.ok (),
       member.add_stake_intent amount is_mega is_delegate,
       entity.add_stake_intent amount is_mega registrar clock)

/-- The `handler` of `src/registry/program/src/stake_intent.rs`: run the
access-control gate, validate the clock sysvar, then run `state_transition` on
the member and entity records deserialized from the supplied accounts. On any
failure the records are returned unchanged. -/
def handler (sysvar_clock_id : Pubkey) (req : AccessControlRequest)
    (clock_acc : ClockAcc) (transferResult : Except TransferError Unit)
    (amount : Nat) : Except RegistryError Unit × Member × Entity :=
  match access_control req with
  | Except.error e => (Except.error e, req.member_acc.data, req.entity_acc.data)
  | Except.ok _ =>
    match Registry.access_control.clock sysvar_clock_id clock_acc with
    | Except.error e => (Except.error e, req.member_acc.data, req.entity_acc.data)
    | Except.ok clock =>
        state_transition transferResult amount req.is_mega req.is_delegate
          req.registrar_acc.data clock req.member_acc.data req.entity_acc.data

end stake_intent

/-- Well-formedness of a `Balances` record: every field is a representable
`u64` value. -/
def Balances.wf (b : Balances) : Prop :=
  b.amount < W ∧ b.mega_amount < W ∧ b.stake_intent < W ∧
    b.mega_stake_intent < W ∧ b.pending_withdrawals < W ∧
    b.mega_pending_withdrawals < W

instance (b : Balances) : Decidable b.wf := by
  unfold Balances.wf; infer_instance

/-- Well-formedness of an `EntityState`: a pending deactivation start slot is a
representable `u64` value. -/
def EntityState.wf : EntityState → Prop
  | EntityState.PendingDeactivation s => s < W
  | _ => True

instance (s : EntityState) : Decidable s.wf := by
  cases s with
  | Inactive => exact inferInstanceAs (Decidable True)
  | PendingDeactivation s => exact inferInstanceAs (Decidable (s < W))
  | Active => exact inferInstanceAs (Decidable True)

/-- Well-formedness of an `Entity`: balances, generation and state hold
representable `u64` values. -/
def Entity.wf (e : Entity) : Prop :=
  e.balances.wf ∧ e.generation < W ∧ e.state.wf

instance (e : Entity) : Decidable e.wf := by
  unfold Entity.wf; infer_instance

/-- Well-formedness of a `Registrar`: its numeric fields are representable
`u64` values. -/
def Registrar.wf (r : Registrar) : Prop :=
  r.reward_activation_threshold < W ∧ r.deactivation_timelock_premium < W

instance (r : Registrar) : Decidable r.wf := by
  unfold Registrar.wf; infer_instance

/-- Well-formedness of a `Clock`: the slot is a representable `u64` value. -/
def Clock.wf (c : Clock) : Prop := c.slot < W

instance (c : Clock) : Decidable c.wf := by
  unfold Clock.wf; infer_instance

/-- One balance-mutating operation on an `Entity`, or a bare re-evaluation of
the activation state machine, each carrying the registrar and clock it is
invoked with. -/
inductive EntityOp where
  | addStakeIntent (amount : Nat) (mega : Bool) (r : Registrar) (c : Clock) : EntityOp
  | subStakeIntent (amount : Nat) (mega : Bool) (r : Registrar) (c : Clock) : EntityOp
  | addStake (amount : Nat) (mega : Bool) (r : Registrar) (c : Clock) : EntityOp
  | transferPendingWithdrawal (amount : Nat) (mega : Bool) (r : Registrar)
      (c : Clock) : EntityOp
  | transitionOnly (r : Registrar) (c : Clock) : EntityOp
deriving DecidableEq

/-- Apply one `EntityOp` to an entity, dispatching to the corresponding method
of `Entity`. -/
def applyOp (e : Entity) : EntityOp → Entity
  | EntityOp.addStakeIntent a m r c => e.add_stake_intent a m r c
  | EntityOp.subStakeIntent a m r c => e.sub_stake_intent a m r c
  | EntityOp.addStake a m r c => e.add_stake a m r c
  | EntityOp.transferPendingWithdrawal a m r c => e.transfer_pending_withdrawal a m r c
  | EntityOp.transitionOnly r c => e.transition_activation_if_needed r c

/-- Apply a sequence of `EntityOp`s from left to right. -/
def applyOps (e : Entity) : List EntityOp → Entity
  | [] => e
  | op :: ops => applyOps (applyOp e op) ops

/-- An all-zero `Balances` record, used as concrete sample data. -/
def zeroBalances : Balances :=
  { amount := 0, mega_amount := 0, stake_intent := 0, mega_stake_intent := 0,
    pending_withdrawals := 0, mega_pending_withdrawals := 0 }

/-- A concrete sample registrar: threshold 10,000,000 and timelock premium
1,000, the values of the repository's lifecycle test. -/
def sampleRegistrar : Registrar :=
  { initialized := true, authority := 2, vault := 20, mega_vault := 21,
    reward_activation_threshold := 10000000, deactivation_timelock_premium := 1000 }

/-- A concrete sample stake-intent request that passes every access-control
check: the registrar, entity and member accounts are owned by program `1`,
initialized and correctly cross-linked, the depositor authority signed, the
supplied member authority is the beneficiary (`is_delegate = false`) and the
vault is the registrar's regular vault (`is_mega = false`). -/
def sampleReq : stake_intent.AccessControlRequest :=
  { registrar_acc := { info := { key := 10, owner := 1, is_signer := false },
                       data := sampleRegistrar },
    program_id := 1,
    depositor_tok_authority := { key := 30, owner := 99, is_signer := true },
    depositor_tok := { key := 31, owner := 99, is_signer := false },
    member_acc := { info := { key := 12, owner := 1, is_signer := false },
                    data := { initialized := true, entity := 11, beneficiary := 40,
                              books := { main := { owner := 40, balances := zeroBalances },
                                         delegate := { owner := 41, balances := zeroBalances } } } },
    member_authority := { key := 40, owner := 99, is_signer := false },
    entity_acc := { info := { key := 11, owner := 1, is_signer := false },
                    data := { initialized := true, registrar := 10, leader := 3,
                              capabilities := 0, stake_kind := StakeKind.Delegated,
                              balances := zeroBalances, generation := 0,
                              state := EntityState.Inactive } },
    token_program := { key := 50, owner := 99, is_signer := false },
    vault_acc := { info := { key := 20, owner := 99, is_signer := false },
                   data := { amount := 0 } },
    is_delegate := false,
    is_mega := false }

/-- `sampleReq` with the depositor authority not signing. -/
def reqNoSigner : stake_intent.AccessControlRequest :=
  { sampleReq with depositor_tok_authority :=
      { sampleReq.depositor_tok_authority with is_signer := false } }

/-- `sampleReq` with the member account owned by a foreign program. -/
def reqBadMemberOwner : stake_intent.AccessControlRequest :=
  { sampleReq with member_acc :=
      { sampleReq.member_acc with info :=
          { sampleReq.member_acc.info with owner := 2 } } }

/-- `sampleReq` with the registrar account owned by a foreign program. -/
def reqBadRegistrarOwner : stake_intent.AccessControlRequest :=
  { sampleReq with registrar_acc :=
      { sampleReq.registrar_acc with info :=
          { sampleReq.registrar_acc.info with owner := 2 } } }

/-- `sampleReq` with an uninitialized registrar record. -/
def reqRegistrarUninit : stake_intent.AccessControlRequest :=
  { sampleReq with registrar_acc :=
      { sampleReq.registrar_acc with data :=
          { sampleReq.registrar_acc.data with initialized := false } } }

/-- `sampleReq` with the entity account owned by a foreign program. -/
def reqBadEntityOwner : stake_intent.AccessControlRequest :=
  { sampleReq with entity_acc :=
      { sampleReq.entity_acc with info :=
          { sampleReq.entity_acc.info with owner := 2 } } }

/-- `sampleReq` with an uninitialized entity record. -/
def reqEntityUninit : stake_intent.AccessControlRequest :=
  { sampleReq with entity_acc :=
      { sampleReq.entity_acc with data :=
          { sampleReq.entity_acc.data with initialized := false } } }

/-- `sampleReq` with the entity's registrar back-reference pointing elsewhere. -/
def reqEntityRegistrarMismatch : stake_intent.AccessControlRequest :=
  { sampleReq with entity_acc :=
      { sampleReq.entity_acc with data :=
          { sampleReq.entity_acc.data with registrar := 99 } } }

/-- `sampleReq` with an uninitialized member record. -/
def reqMemberUninit : stake_intent.AccessControlRequest :=
  { sampleReq with member_acc :=
      { sampleReq.member_acc with data :=
          { sampleReq.member_acc.data with initialized := false } } }

/-- `sampleReq` with the member's entity back-reference pointing elsewhere. -/
def reqMemberEntityMismatch : stake_intent.AccessControlRequest :=
  { sampleReq with member_acc :=
      { sampleReq.member_acc with data :=
          { sampleReq.member_acc.data with entity := 99 } } }

/-- `sampleReq` as a delegate request whose supplied authority is not the
delegate owner. -/
def reqDelegateMismatch : stake_intent.AccessControlRequest :=
  { sampleReq with
      is_delegate := true,
      member_authority := { key := 77, owner := 99, is_signer := false } }

/-- `sampleReq` with a supplied authority that is not the beneficiary. -/
def reqBeneficiaryMismatch : stake_intent.AccessControlRequest :=
  { sampleReq with
      member_authority := { key := 77, owner := 99, is_signer := false } }

/-- `sampleReq` with a vault reference that is not the registrar's vault. -/
def reqVaultMismatch : stake_intent.AccessControlRequest :=
  { sampleReq with vault_acc :=
      { sampleReq.vault_acc with info :=
          { sampleReq.vault_acc.info with key := 99 } } }

/-- `sampleReq` as a mega request whose vault reference is not the registrar's
mega vault (it is the regular vault instead). -/
def reqMegaVaultMismatch : stake_intent.AccessControlRequest :=
  { sampleReq with is_mega := true }

/-- Check 1 of the specification's access-control contract: the depositor
authority signed the request. -/
def signerOk (req : stake_intent.AccessControlRequest) : Prop :=
  req.depositor_tok_authority.is_signer = true

instance (req : stake_intent.AccessControlRequest) : Decidable (signerOk req) := by
  unfold signerOk; infer_instance

/-- Check 2a: the registrar account is owned by the registry program. -/
def registrarOwnerOk (req : stake_intent.AccessControlRequest) : Prop :=
  req.registrar_acc.info.owner = req.program_id

instance (req : stake_intent.AccessControlRequest) :
    Decidable (registrarOwnerOk req) := by
  unfold registrarOwnerOk; infer_instance

/-- Check 2b: the registrar record is initialized. -/
def registrarInitOk (req : stake_intent.AccessControlRequest) : Prop :=
  req.registrar_acc.data.initialized = true

instance (req : stake_intent.AccessControlRequest) :
    Decidable (registrarInitOk req) := by
  unfold registrarInitOk; infer_instance

/-- Check 3a: the entity account is owned by the registry program. -/
def entityOwnerOk (req : stake_intent.AccessControlRequest) : Prop :=
  req.entity_acc.info.owner = req.program_id

instance (req : stake_intent.AccessControlRequest) :
    Decidable (entityOwnerOk req) := by
  unfold entityOwnerOk; infer_instance

/-- Check 3b: the entity record is initialized. -/
def entityInitOk (req : stake_intent.AccessControlRequest) : Prop :=
  req.entity_acc.data.initialized = true

instance (req : stake_intent.AccessControlRequest) :
    Decidable (entityInitOk req) := by
  unfold entityInitOk; infer_instance

/-- Check 3c: the entity references the given registrar. -/
def entityRegistrarOk (req : stake_intent.AccessControlRequest) : Prop :=
  req.entity_acc.data.registrar = req.registrar_acc.info.key

instance (req : stake_intent.AccessControlRequest) :
    Decidable (entityRegistrarOk req) := by
  unfold entityRegistrarOk; infer_instance

/-- Check 4a: the member account is owned by the registry program. -/
def memberOwnerOk (req : stake_intent.AccessControlRequest) : Prop :=
  req.member_acc.info.owner = req.program_id

instance (req : stake_intent.AccessControlRequest) :
    Decidable (memberOwnerOk req) := by
  unfold memberOwnerOk; infer_instance

/-- Check 4b: the member record is initialized. -/
def memberInitOk (req : stake_intent.AccessControlRequest) : Prop :=
  req.member_acc.data.initialized = true

instance (req : stake_intent.AccessControlRequest) :
    Decidable (memberInitOk req) := by
  unfold memberInitOk; infer_instance

/-- Check 4c: the member references the given entity. -/
def memberEntityOk (req : stake_intent.AccessControlRequest) : Prop :=
  req.member_acc.data.entity = req.entity_acc.info.key

instance (req : stake_intent.AccessControlRequest) :
    Decidable (memberEntityOk req) := by
  unfold memberEntityOk; infer_instance

/-- Check 4d: the supplied member authority matches the delegate owner when
`is_delegate`, else the beneficiary. -/
def memberAuthorityOk (req : stake_intent.AccessControlRequest) : Prop :=
  (req.is_delegate = true →
    req.member_authority.key = req.member_acc.data.books.delegate.owner) ∧
  (req.is_delegate = false →
    req.member_authority.key = req.member_acc.data.beneficiary)

instance (req : stake_intent.AccessControlRequest) :
    Decidable (memberAuthorityOk req) := by
  unfold memberAuthorityOk; infer_instance

/-- Check 5: the vault reference equals the registrar's mega vault when
`is_mega`, else its regular vault. -/
def vaultOk (req : stake_intent.AccessControlRequest) : Prop :=
  (req.is_mega = true →
    req.registrar_acc.data.mega_vault = req.vault_acc.info.key) ∧
  (req.is_mega = false →
    req.registrar_acc.data.vault = req.vault_acc.info.key)

instance (req : stake_intent.AccessControlRequest) : Decidable (vaultOk req) := by
  unfold vaultOk; infer_instance

/-- The activation transition never changes the balances of an entity. -/
theorem transition_balances (e : Entity) (r : Registrar) (c : Clock) :
    (e.transition_activation_if_needed r c).balances = e.balances := by
  unfold Entity.transition_activation_if_needed
  cases e.state <;> dsimp only <;> split_ifs <;> rfl

/-- The activation transition never changes the `initialized`, `registrar`,
`leader`, `capabilities` or `stake_kind` fields of an entity. -/
theorem transition_fixed_fields (e : Entity) (r : Registrar) (c : Clock) :
    (e.transition_activation_if_needed r c).initialized = e.initialized ∧
    (e.transition_activation_if_needed r c).registrar = e.registrar ∧
    (e.transition_activation_if_needed r c).leader = e.leader ∧
    (e.transition_activation_if_needed r c).capabilities = e.capabilities ∧
    (e.transition_activation_if_needed r c).stake_kind = e.stake_kind := by
  unfold Entity.transition_activation_if_needed
  cases e.state <;> dsimp only <;> split_ifs <;> exact ⟨rfl, rfl, rfl, rfl, rfl⟩

/-- The generation after one activation transition: it is unchanged, or it is
the wrapped successor and the transition went from `Inactive` to `Active`. -/
theorem transition_generation (e : Entity) (r : Registrar) (c : Clock) :
    (e.transition_activation_if_needed r c).generation = e.generation ∨
      ((e.transition_activation_if_needed r c).generation = u64add e.generation 1 ∧
        e.state = EntityState.Inactive ∧
        (e.transition_activation_if_needed r c).state = EntityState.Active) := by
  unfold Entity.transition_activation_if_needed
  cases hst : e.state with
  | Inactive =>
      dsimp only
      split_ifs with h
      · exact Or.inr ⟨rfl, rfl, rfl⟩
      · exact Or.inl rfl
  | PendingDeactivation s =>
      dsimp only
      split_ifs <;> exact Or.inl rfl
  | Active =>
      dsimp only
      split_ifs <;> exact Or.inl rfl

/-- FSM branch: from `Inactive`, at or above threshold, the entity becomes
`Active` and the generation is (wrapping-)incremented. -/
theorem trans_inactive_up (e : Entity) (r : Registrar) (c : Clock)
    (hst : e.state = EntityState.Inactive)
    (h : e.activation_amount ≥ r.reward_activation_threshold) :
    e.transition_activation_if_needed r c =
      { e with state := EntityState.Active, generation := u64add e.generation 1 } := by
  simp only [Entity.transition_activation_if_needed, hst]
  rw [if_pos h]

/-- FSM branch: from `Inactive`, below threshold, the entity is unchanged. -/
theorem trans_inactive_stay (e : Entity) (r : Registrar) (c : Clock)
    (hst : e.state = EntityState.Inactive)
    (h : e.activation_amount < r.reward_activation_threshold) :
    e.transition_activation_if_needed r c = e := by
  simp only [Entity.transition_activation_if_needed, hst]
  rw [if_neg (not_le.mpr h)]

/-- FSM branch: from `PendingDeactivation`, past the timelock window, the
entity becomes `Inactive` (regardless of the activation amount). -/
theorem trans_pending_expire (e : Entity) (r : Registrar) (c : Clock)
    (s : Nat) (hst : e.state = EntityState.PendingDeactivation s)
    (h : c.slot > u64add s r.deactivation_timelock) :
    e.transition_activation_if_needed r c = { e with state := EntityState.Inactive } := by
  simp only [Entity.transition_activation_if_needed, hst]
  rw [if_pos h]

/-- FSM branch: from `PendingDeactivation`, within the timelock window and at
or above threshold, the entity becomes `Active` with its generation unchanged. -/
theorem trans_pending_reactivate (e : Entity) (r : Registrar) (c : Clock)
    (s : Nat) (hst : e.state = EntityState.PendingDeactivation s)
    (h1 : ¬ c.slot > u64add s r.deactivation_timelock)
    (h2 : e.activation_amount ≥ r.reward_activation_threshold) :
    e.transition_activation_if_needed r c = { e with state := EntityState.Active } := by
  simp only [Entity.transition_activation_if_needed, hst]
  rw [if_neg h1, if_pos h2]

/-- FSM branch: from `PendingDeactivation`, within the timelock window and
below threshold, the entity is unchanged. -/
theorem trans_pending_stay (e : Entity) (r : Registrar) (c : Clock)
    (s : Nat) (hst : e.state = EntityState.PendingDeactivation s)
    (h1 : ¬ c.slot > u64add s r.deactivation_timelock)
    (h2 : e.activation_amount < r.reward_activation_threshold) :
    e.transition_activation_if_needed r c = e := by
  simp only [Entity.transition_activation_if_needed, hst]
  rw [if_neg h1, if_neg (not_le.mpr h2)]

/-- FSM branch: from `Active`, below threshold, the entity enters
`PendingDeactivation` stamped with the current slot. -/
theorem trans_active_down (e : Entity) (r : Registrar) (c : Clock)
    (hst : e.state = EntityState.Active)
    (h : e.activation_amount < r.reward_activation_threshold) :
    e.transition_activation_if_needed r c =
      { e with state := EntityState.PendingDeactivation c.slot } := by
  simp only [Entity.transition_activation_if_needed, hst]
  rw [if_pos h]

/-- FSM branch: from `Active`, at or above threshold, the entity is unchanged. -/
theorem trans_active_stay (e : Entity) (r : Registrar) (c : Clock)
    (hst : e.state = EntityState.Active)
    (h : e.activation_amount ≥ r.reward_activation_threshold) :
    e.transition_activation_if_needed r c = e := by
  simp only [Entity.transition_activation_if_needed, hst]
  rw [if_neg (not_lt.mpr h)]

/-- Claim C1 (counterexample): `transition_activation_if_needed` is not
idempotent. A concrete entity in `PendingDeactivation` whose timelock has
expired while its activation amount still meets the threshold moves to
`Inactive` on the first call and to `Active` on the second, so the two
resulting `EntityState`s differ. -/
theorem c1_counterexample :
    ((Entity.transition_activation_if_needed
        ⟨true, 10, 3, 0, StakeKind.Delegated, ⟨0, 0, 10000000, 0, 0, 0⟩, 1,
          EntityState.PendingDeactivation 0⟩
        sampleRegistrar ⟨1001⟩).transition_activation_if_needed
        sampleRegistrar ⟨1001⟩).state ≠
      (Entity.transition_activation_if_needed
        ⟨true, 10, 3, 0, StakeKind.Delegated, ⟨0, 0, 10000000, 0, 0, 0⟩, 1,
          EntityState.PendingDeactivation 0⟩
        sampleRegistrar ⟨1001⟩).state := by
  decide

/-- Claim C1 (amended): `transition_activation_if_needed` is idempotent for
every entity state, registrar and clock, provided (a) `clock.slot +
deactivation_timelock` does not overflow `u64`, and (b) the entity is not in a
`PendingDeactivation` state whose timelock has expired while the activation
amount still meets the threshold (in that one case the first call yields
`Inactive` and the second re-activates to `Active`). -/
theorem c1_idempotent_amended (e : Entity) (r : Registrar) (c : Clock)
    (hslot : c.slot + r.deactivation_timelock < W)
    (hexp : ∀ s, e.state = EntityState.PendingDeactivation s →
      c.slot > u64add s r.deactivation_timelock →
      e.activation_amount < r.reward_activation_threshold) :
    (e.transition_activation_if_needed r c).transition_activation_if_needed r c =
      e.transition_activation_if_needed r c := by
  cases hst : e.state with
  | Inactive =>
      by_cases h : e.activation_amount ≥ r.reward_activation_threshold
      · rw [trans_inactive_up e r c hst h]
        exact trans_active_stay _ r c rfl h
      · rw [trans_inactive_stay e r c hst (not_le.mp h)]
        exact trans_inactive_stay e r c hst (not_le.mp h)
  | PendingDeactivation s =>
      by_cases hwin : c.slot > u64add s r.deactivation_timelock
      · have hlow := hexp s hst hwin
        rw [trans_pending_expire e r c s hst hwin]
        exact trans_inactive_stay _ r c rfl hlow
      · by_cases h : e.activation_amount ≥ r.reward_activation_threshold
        · rw [trans_pending_reactivate e r c s hst hwin h]
          exact trans_active_stay _ r c rfl h
        · rw [trans_pending_stay e r c s hst hwin (not_le.mp h)]
          exact trans_pending_stay e r c s hst hwin (not_le.mp h)
  | Active =>
      by_cases h : e.activation_amount ≥ r.reward_activation_threshold
      · rw [trans_active_stay e r c hst h]
        exact trans_active_stay e r c hst h
      · have hnot : ¬ c.slot > u64add c.slot r.deactivation_timelock := by
          have : u64add c.slot r.deactivation_timelock =
              c.slot + r.deactivation_timelock := by
            unfold u64add
            exact Nat.mod_eq_of_lt hslot
          omega
        rw [trans_active_down e r c hst (not_le.mp h)]
        exact trans_pending_stay _ r c c.slot rfl hnot (not_le.mp h)

/-- Claim C1 (witness): the amended idempotence theorem applied to a concrete
inactive entity below threshold. -/
theorem c1_witness :
    (Entity.transition_activation_if_needed
        (Entity.transition_activation_if_needed
          ⟨true, 10, 3, 0, StakeKind.Delegated, zeroBalances, 0, EntityState.Inactive⟩
          sampleRegistrar ⟨5⟩)
        sampleRegistrar ⟨5⟩) =
      Entity.transition_activation_if_needed
        ⟨true, 10, 3, 0, StakeKind.Delegated, zeroBalances, 0, EntityState.Inactive⟩
        sampleRegistrar ⟨5⟩ :=
  c1_idempotent_amended
    ⟨true, 10, 3, 0, StakeKind.Delegated, zeroBalances, 0, EntityState.Inactive⟩
    sampleRegistrar ⟨5⟩ (by decide) (fun s h => nomatch h)

/-- Claim C2: `transition_activation_if_needed` implements exactly the
three-branch FSM of the specification. From `Inactive` it moves to `Active`
and increments the generation exactly when the activation amount meets the
threshold; from `PendingDeactivation{start}` it moves to `Inactive` when the
timelock expired, else back to `Active` (generation untouched) when the
activation amount meets the threshold, else stays unchanged; from `Active` it
moves to `PendingDeactivation{clock.slot}` exactly when the activation amount
is below the threshold; in every other case the entity (state and generation
included) is unchanged. -/
theorem c2_fsm_exact (e : Entity) (r : Registrar) (c : Clock) :
    (e.state = EntityState.Inactive →
      (e.activation_amount ≥ r.reward_activation_threshold →
        e.transition_activation_if_needed r c =
          { e with state := EntityState.Active,
                   generation := u64add e.generation 1 }) ∧
      (e.activation_amount < r.reward_activation_threshold →
        e.transition_activation_if_needed r c = e)) ∧
    (∀ s, e.state = EntityState.PendingDeactivation s →
      (c.slot > u64add s r.deactivation_timelock →
        e.transition_activation_if_needed r c =
          { e with state := EntityState.Inactive }) ∧
      (c.slot ≤ u64add s r.deactivation_timelock →
        e.activation_amount ≥ r.reward_activation_threshold →
        e.transition_activation_if_needed r c =
          { e with state := EntityState.Active }) ∧
      (c.slot ≤ u64add s r.deactivation_timelock →
        e.activation_amount < r.reward_activation_threshold →
        e.transition_activation_if_needed r c = e)) ∧
    (e.state = EntityState.Active →
      (e.activation_amount < r.reward_activation_threshold →
        e.transition_activation_if_needed r c =
          { e with state := EntityState.PendingDeactivation c.slot }) ∧
      (e.activation_amount ≥ r.reward_activation_threshold →
        e.transition_activation_if_needed r c = e)) := by
  refine ⟨fun hst => ⟨fun h => ?_, fun h => ?_⟩,
          fun s hst => ⟨fun h => ?_, fun h1 h2 => ?_, fun h1 h2 => ?_⟩,
          fun hst => ⟨fun h => ?_, fun h => ?_⟩⟩
  · exact trans_inactive_up e r c hst h
  · exact trans_inactive_stay e r c hst h
  · exact trans_pending_expire e r c s hst h
  · exact trans_pending_reactivate e r c s hst (not_lt.mpr h1) h2
  · exact trans_pending_stay e r c s hst (not_lt.mpr h1) h2
  · exact trans_active_down e r c hst h
  · exact trans_active_stay e r c hst h

/-- Claim C2 (witness): the FSM case theorem applied to a concrete entity in
`PendingDeactivation{0}` whose timelock (window 1000) has expired at slot 1001:
the transition yields `Inactive`. -/
theorem c2_witness :
    Entity.transition_activation_if_needed
        ⟨true, 10, 3, 0, StakeKind.Delegated, zeroBalances, 1,
          EntityState.PendingDeactivation 0⟩
        sampleRegistrar ⟨1001⟩ =
      ⟨true, 10, 3, 0, StakeKind.Delegated, zeroBalances, 1,
        EntityState.Inactive⟩ :=
  ((c2_fsm_exact
      ⟨true, 10, 3, 0, StakeKind.Delegated, zeroBalances, 1,
        EntityState.PendingDeactivation 0⟩
      sampleRegistrar ⟨1001⟩).2.1 0 rfl).1 (by decide)

/-- Claim C3: in the stake-intent handler's `state_transition`, the external
token transfer is issued before any local mutation; if it fails, the whole
operation fails with an error and the `Member` and `Entity` records are
returned exactly as they were. -/
theorem c3_transfer_failure_atomic (t : TransferError) (amount : Nat)
    (is_mega is_delegate : Bool) (r : Registrar) (k : Clock) (m : Member)
    (e : Entity) :
    stake_intent.state_transition (Except.error t) amount is_mega is_delegate
        r k m e =
      (Except.error (RegistryError.transfer t), m, e) := rfl

/-- Claim C5 (counterexample): `Entity::sub_stake_intent` does not fail when
the amount exceeds the stored balance; it wraps. Subtracting 1 from a zero
`stake_intent` balance silently produces `2^64 - 1`. -/
theorem c5_counterexample :
    (Entity.sub_stake_intent
        ⟨true, 10, 3, 0, StakeKind.Delegated, zeroBalances, 0, EntityState.Inactive⟩
        1 false sampleRegistrar ⟨0⟩).balances.stake_intent =
      18446744073709551615 := by
  decide

/-- Claim C5 (amended): `sub_stake_intent` and `transfer_pending_withdrawal`
perform unchecked `u64` subtraction: whenever `amount` exceeds the stored
field, no error is raised and the field wraps around modulo `2^64`, becoming
`field + 2^64 - amount`. -/
theorem c5_sub_wraps_amended (e : Entity) (amount : Nat) (r : Registrar)
    (k : Clock) :
    (amount < W → e.balances.mega_stake_intent < W →
      e.balances.mega_stake_intent < amount →
      (e.sub_stake_intent amount true r k).balances.mega_stake_intent =
        e.balances.mega_stake_intent + W - amount) ∧
    (amount < W → e.balances.stake_intent < W →
      e.balances.stake_intent < amount →
      (e.sub_stake_intent amount false r k).balances.stake_intent =
        e.balances.stake_intent + W - amount) ∧
    (amount < W → e.balances.mega_amount < W →
      e.balances.mega_amount < amount →
      (e.transfer_pending_withdrawal amount true r k).balances.mega_amount =
        e.balances.mega_amount + W - amount) ∧
    (amount < W → e.balances.amount < W →
      e.balances.amount < amount →
      (e.transfer_pending_withdrawal amount false r k).balances.amount =
        e.balances.amount + W - amount) := by
  refine ⟨fun h1 h2 h3 => ?_, fun h1 h2 h3 => ?_, fun h1 h2 h3 => ?_,
          fun h1 h2 h3 => ?_⟩ <;>
    simp [Entity.sub_stake_intent, Entity.transfer_pending_withdrawal,
      transition_balances] <;>
    unfold u64sub W at * <;>
    omega

/-- Claim C5 (witness): the wrap characterization applied to a concrete entity
holding 5 in every balance field, subtracting 7. -/
theorem c5_witness :
    (Entity.sub_stake_intent
        ⟨true, 10, 3, 0, StakeKind.Delegated, ⟨5, 5, 5, 5, 5, 5⟩, 0,
          EntityState.Inactive⟩
        7 true sampleRegistrar ⟨0⟩).balances.mega_stake_intent =
      5 + W - 7 :=
  (c5_sub_wraps_amended
      ⟨true, 10, 3, 0, StakeKind.Delegated, ⟨5, 5, 5, 5, 5, 5⟩, 0,
        EntityState.Inactive⟩
      7 sampleRegistrar ⟨0⟩).1 (by decide) (by decide) (by decide)

/-- Claim C6: `activation_amount()` equals
`amount + mega_amount * 1_000_000 + stake_intent + mega_stake_intent * 1_000_000`
computed in (wrapping) `u64` arithmetic, for every entity. -/
theorem c6_activation_amount_formula (e : Entity) :
    e.activation_amount =
      u64add
        (u64add (u64add e.balances.amount (u64mul e.balances.mega_amount 1000000))
          e.balances.stake_intent)
        (u64mul e.balances.mega_stake_intent 1000000) := by
  unfold Entity.activation_amount Entity.amount_equivalent
    Entity.stake_intent_equivalent u64add u64mul W
  omega

/-- Claim C10: `Entity::add_stake` is extensionally identical to
`Entity::add_stake_intent` — it adds to the stake-intent (or mega-stake-intent)
field, selected by the mega flag, and leaves the settled `amount` and
`mega_amount` fields unchanged. -/
theorem c10_add_stake_equals_add_stake_intent (e : Entity) (amount : Nat)
    (is_mega : Bool) (r : Registrar) (k : Clock) :
    e.add_stake amount is_mega r k = e.add_stake_intent amount is_mega r k ∧
    (e.add_stake amount is_mega r k).balances.amount = e.balances.amount ∧
    (e.add_stake amount is_mega r k).balances.mega_amount =
      e.balances.mega_amount ∧
    (e.add_stake amount is_mega r k).balances.mega_stake_intent =
      (if is_mega then u64add e.balances.mega_stake_intent amount
       else e.balances.mega_stake_intent) ∧
    (e.add_stake amount is_mega r k).balances.stake_intent =
      (if is_mega then e.balances.stake_intent
       else u64add e.balances.stake_intent amount) := by
  refine ⟨rfl, ?_, ?_, ?_, ?_⟩ <;>
    cases is_mega <;>
    simp [Entity.add_stake, transition_balances]

/-- The generation after one `EntityOp`: it is unchanged, or it is the wrapped
successor and the underlying transition went from `Inactive` to `Active`. -/
theorem applyOp_generation (e : Entity) (op : EntityOp) :
    (applyOp e op).generation = e.generation ∨
      ((applyOp e op).generation = u64add e.generation 1 ∧
        e.state = EntityState.Inactive ∧
        (applyOp e op).state = EntityState.Active) := by
  cases op with
  | addStakeIntent a m r c => cases m <;> exact transition_generation _ r c
  | subStakeIntent a m r c => cases m <;> exact transition_generation _ r c
  | addStake a m r c => cases m <;> exact transition_generation _ r c
  | transferPendingWithdrawal a m r c => cases m <;> exact transition_generation _ r c
  | transitionOnly r c => exact transition_generation e r c

/-- One `EntityOp` moves the generation up by at most one (and never down)
when the generation counter cannot wrap. -/
theorem applyOp_generation_bounds (e : Entity) (op : EntityOp)
    (h : e.generation + 1 < W) :
    e.generation ≤ (applyOp e op).generation ∧
      (applyOp e op).generation ≤ e.generation + 1 := by
  rcases applyOp_generation e op with heq | ⟨heq, _, _⟩
  · rw [heq]; omega
  · rw [heq]; unfold u64add; rw [Nat.mod_eq_of_lt h]; omega

/-- The generation is non-decreasing along any operation sequence, provided the
counter cannot wrap during the sequence. -/
theorem applyOps_generation_mono (ops : List EntityOp) :
    ∀ e : Entity, e.generation + ops.length < W →
      e.generation ≤ (applyOps e ops).generation := by
  induction ops with
  | nil => intro e _; exact le_rfl
  | cons op ops ih =>
      intro e h
      simp only [List.length_cons] at h
      have hb := applyOp_generation_bounds e op (by omega)
      have h2 : (applyOp e op).generation + ops.length < W := by omega
      exact le_trans hb.1 (ih (applyOp e op) h2)

/-- Claim C7 (counterexample): the generation is not non-decreasing across
every operation sequence. With the generation at `2^64 - 1`, a single
re-evaluation that activates an inactive entity (threshold 0) wraps the
counter to 0, strictly decreasing it. -/
theorem c7_counterexample :
    (applyOps
        ⟨true, 10, 3, 0, StakeKind.Delegated, zeroBalances,
          18446744073709551615, EntityState.Inactive⟩
        [EntityOp.transitionOnly ⟨true, 2, 20, 21, 0, 1000⟩ ⟨5⟩]).generation <
      (⟨true, 10, 3, 0, StakeKind.Delegated, zeroBalances,
          18446744073709551615, EntityState.Inactive⟩ : Entity).generation := by
  decide

/-- Claim C7 (amended): provided the `u64` generation counter cannot wrap
(`generation + number of operations < 2^64`), the generation is non-decreasing
across every sequence of balance-mutating operations and transition
re-evaluations, and a single operation changes it only by going from the
given value to its successor with the entity transitioning from `Inactive` to
`Active`. -/
theorem c7_generation_monotonic_amended (e : Entity) (ops : List EntityOp)
    (e2 : Entity) (op2 : EntityOp)
    (h1 : e.generation + ops.length < W) (h2 : e2.generation + 1 < W) :
    e.generation ≤ (applyOps e ops).generation ∧
      ((applyOp e2 op2).generation = e2.generation ∨
        ((applyOp e2 op2).generation = e2.generation + 1 ∧
          e2.state = EntityState.Inactive ∧
          (applyOp e2 op2).state = EntityState.Active)) := by
  constructor
  · exact applyOps_generation_mono ops e h1
  · rcases applyOp_generation e2 op2 with h | ⟨ha, hb, hc⟩
    · exact Or.inl h
    · refine Or.inr ⟨?_, hb, hc⟩
      rw [ha]; unfold u64add; exact Nat.mod_eq_of_lt h2

/-- Claim C7 (witness): the amended monotonicity theorem applied to a concrete
inactive entity activated by a deposit meeting the threshold. -/
theorem c7_witness :
    (⟨true, 10, 3, 0, StakeKind.Delegated, zeroBalances, 0,
        EntityState.Inactive⟩ : Entity).generation ≤
      (applyOps
        ⟨true, 10, 3, 0, StakeKind.Delegated, zeroBalances, 0,
          EntityState.Inactive⟩
        [EntityOp.addStakeIntent 10000000 false sampleRegistrar ⟨5⟩]).generation ∧
      ((applyOp
          ⟨true, 10, 3, 0, StakeKind.Delegated, zeroBalances, 0,
            EntityState.Inactive⟩
          (EntityOp.addStakeIntent 10000000 false sampleRegistrar ⟨5⟩)).generation =
        (0 : Nat) ∨
        ((applyOp
            ⟨true, 10, 3, 0, StakeKind.Delegated, zeroBalances, 0,
              EntityState.Inactive⟩
            (EntityOp.addStakeIntent 10000000 false sampleRegistrar ⟨5⟩)).generation =
          0 + 1 ∧
          (⟨true, 10, 3, 0, StakeKind.Delegated, zeroBalances, 0,
              EntityState.Inactive⟩ : Entity).state = EntityState.Inactive ∧
          (applyOp
            ⟨true, 10, 3, 0, StakeKind.Delegated, zeroBalances, 0,
              EntityState.Inactive⟩
            (EntityOp.addStakeIntent 10000000 false sampleRegistrar ⟨5⟩)).state =
            EntityState.Active)) :=
  c7_generation_monotonic_amended
    ⟨true, 10, 3, 0, StakeKind.Delegated, zeroBalances, 0, EntityState.Inactive⟩
    [EntityOp.addStakeIntent 10000000 false sampleRegistrar ⟨5⟩]
    ⟨true, 10, 3, 0, StakeKind.Delegated, zeroBalances, 0, EntityState.Inactive⟩
    (EntityOp.addStakeIntent 10000000 false sampleRegistrar ⟨5⟩)
    (by decide) (by decide)

/-- Claim C9: `transition_activation_if_needed` is total — it never panics or
returns an error. In the wrapping `u64` semantics of the deployed code every
arithmetic step is defined (`activation_amount()` and
`deactivation_start_slot + deactivation_timelock()` included), and the
function maps every well-formed entity, registrar and clock to a well-formed
entity. -/
theorem c9_transition_total (e : Entity) (r : Registrar) (c : Clock)
    (he : e.wf) (hr : r.wf) (hc : c.wf) :
    (e.transition_activation_if_needed r c).wf ∧ e.activation_amount < W := by
  have hWpos : 0 < W := by norm_num [W]
  constructor
  · refine ⟨?_, ?_, ?_⟩
    · rw [transition_balances]; exact he.1
    · rcases transition_generation e r c with h | ⟨h, _, _⟩
      · rw [h]; exact he.2.1
      · rw [h]; unfold u64add; exact Nat.mod_lt _ hWpos
    · unfold Entity.transition_activation_if_needed
      cases hst : e.state with
      | Inactive =>
          dsimp only
          split_ifs
          · exact trivial
          · rw [hst]; exact trivial
      | PendingDeactivation s =>
          dsimp only
          split_ifs
          · exact trivial
          · exact trivial
          · rw [hst]
            have := he.2.2
            rw [hst] at this
            exact this
      | Active =>
          dsimp only
          split_ifs
          · exact hc
          · rw [hst]; exact trivial
  · unfold Entity.activation_amount u64add
    exact Nat.mod_lt _ hWpos

/-- Claim C9 (witness): totality applied to a concrete well-formed entity. -/
theorem c9_witness :
    (Entity.transition_activation_if_needed
        ⟨true, 10, 3, 0, StakeKind.Delegated, zeroBalances, 0,
          EntityState.Inactive⟩
        sampleRegistrar ⟨5⟩).wf ∧
      (⟨true, 10, 3, 0, StakeKind.Delegated, zeroBalances, 0,
          EntityState.Inactive⟩ : Entity).activation_amount < W :=
  c9_transition_total
    ⟨true, 10, 3, 0, StakeKind.Delegated, zeroBalances, 0, EntityState.Inactive⟩
    sampleRegistrar ⟨5⟩ (by decide) (by decide) (by decide)

/-- Claim C8 (counterexample): a successful stake-intent deposit does not
always increase the selected field by exactly `amount`: with the member's
delegate `mega_stake_intent` at `2^64 - 1`, a successful deposit of 2 wraps
the field to 1 instead of increasing it. -/
theorem c8_counterexample :
    (stake_intent.state_transition (Except.ok ()) 2 true true sampleRegistrar
        ⟨0⟩
        ⟨true, 11, 40,
          ⟨⟨40, zeroBalances⟩,
           ⟨41, ⟨0, 0, 0, 18446744073709551615, 0, 0⟩⟩⟩⟩
        ⟨true, 10, 3, 0, StakeKind.Delegated, zeroBalances, 0,
          EntityState.Inactive⟩).2.1.books.delegate.balances.mega_stake_intent ≠
      (⟨true, 11, 40,
          ⟨⟨40, zeroBalances⟩,
           ⟨41, ⟨0, 0, 0, 18446744073709551615, 0, 0⟩⟩⟩⟩ :
        Member).books.delegate.balances.mega_stake_intent + 2 := by
  decide

/-- Claim C8 (amended): when a stake-intent deposit succeeds and the selected
member and entity stake-intent fields do not overflow `u64`, the member's
selected sub-ledger field and the entity aggregate's matching field each
increase by exactly `amount`, every other field of the member is unchanged
(the result is the input member with only that one field bumped), and the
resulting entity is exactly the FSM re-evaluation of the entity with the new
aggregate. Stated for each of the four `(is_mega, is_delegate)` flag
combinations. -/
theorem c8_stake_intent_postconditions_amended (m : Member) (e : Entity)
    (amount : Nat) (r : Registrar) (k : Clock) :
    (m.books.delegate.balances.mega_stake_intent + amount < W →
      e.balances.mega_stake_intent + amount < W →
      stake_intent.state_transition (Except.ok ()) amount true true r k m e =
        (Except.ok (),
         { m with books := { m.books with delegate := { m.books.delegate with
             balances := { m.books.delegate.balances with
               mega_stake_intent :=
                 m.books.delegate.balances.mega_stake_intent + amount } } } },
         Entity.transition_activation_if_needed
           { e with balances := { e.balances with
               mega_stake_intent := e.balances.mega_stake_intent + amount } }
           r k)) ∧
    (m.books.main.balances.mega_stake_intent + amount < W →
      e.balances.mega_stake_intent + amount < W →
      stake_intent.state_transition (Except.ok ()) amount true false r k m e =
        (Except.ok (),
         { m with books := { m.books with main := { m.books.main with
             balances := { m.books.main.balances with
               mega_stake_intent :=
                 m.books.main.balances.mega_stake_intent + amount } } } },
         Entity.transition_activation_if_needed
           { e with balances := { e.balances with
               mega_stake_intent := e.balances.mega_stake_intent + amount } }
           r k)) ∧
    (m.books.delegate.balances.stake_intent + amount < W →
      e.balances.stake_intent + amount < W →
      stake_intent.state_transition (Except.ok ()) amount false true r k m e =
        (Except.ok (),
         { m with books := { m.books with delegate := { m.books.delegate with
             balances := { m.books.delegate.balances with
               stake_intent :=
                 m.books.delegate.balances.stake_intent + amount } } } },
         Entity.transition_activation_if_needed
           { e with balances := { e.balances with
               stake_intent := e.balances.stake_intent + amount } }
           r k)) ∧
    (m.books.main.balances.stake_intent + amount < W →
      e.balances.stake_intent + amount < W →
      stake_intent.state_transition (Except.ok ()) amount false false r k m e =
        (Except.ok (),
         { m with books := { m.books with main := { m.books.main with
             balances := { m.books.main.balances with
               stake_intent := m.books.main.balances.stake_intent + amount } } } },
         Entity.transition_activation_if_needed
           { e with balances := { e.balances with
               stake_intent := e.balances.stake_intent + amount } }
           r k)) := by
  refine ⟨fun h1 h2 => ?_, fun h1 h2 => ?_, fun h1 h2 => ?_, fun h1 h2 => ?_⟩ <;>
    simp only [stake_intent.state_transition, Member.add_stake_intent,
      Book.add_intent, Entity.add_stake_intent] <;>
    simp <;>
    unfold u64add <;>
    rw [Nat.mod_eq_of_lt h1, Nat.mod_eq_of_lt h2] <;>
    exact ⟨rfl, rfl⟩

/-- Claim C8 (witness): the amended postcondition theorem applied to a
concrete regular-class owner deposit of 10,000,000 on a fresh member and
entity, which also activates the entity. -/
theorem c8_witness :
    stake_intent.state_transition (Except.ok ()) 10000000 false false
        sampleRegistrar ⟨5⟩
        ⟨true, 11, 40, ⟨⟨40, zeroBalances⟩, ⟨41, zeroBalances⟩⟩⟩
        ⟨true, 10, 3, 0, StakeKind.Delegated, zeroBalances, 0,
          EntityState.Inactive⟩ =
      (Except.ok (),
       ⟨true, 11, 40,
        ⟨⟨40, ⟨0, 0, 10000000, 0, 0, 0⟩⟩, ⟨41, zeroBalances⟩⟩⟩,
       Entity.transition_activation_if_needed
         ⟨true, 10, 3, 0, StakeKind.Delegated, ⟨0, 0, 10000000, 0, 0, 0⟩, 0,
           EntityState.Inactive⟩
         sampleRegistrar ⟨5⟩) :=
  ((c8_stake_intent_postconditions_amended
      ⟨true, 11, 40, ⟨⟨40, zeroBalances⟩, ⟨41, zeroBalances⟩⟩⟩
      ⟨true, 10, 3, 0, StakeKind.Delegated, zeroBalances, 0,
        EntityState.Inactive⟩
      10000000 sampleRegistrar ⟨5⟩).2.2.2 (by decide) (by decide))

/-- Claim C4 (counterexample): a request violating exactly the member
owned-by-program condition (all other checks satisfied) is rejected with
`InvalidOwner`, which is a distinct error from `InvalidAccountOwner` and is
not among the seven errors the claim associates with the five checks. -/
theorem c4_counterexample :
    stake_intent.access_control reqBadMemberOwner =
      Except.error (RegistryError.code RegistryErrorCode.InvalidOwner) ∧
    RegistryErrorCode.InvalidOwner ∉
      [RegistryErrorCode.Unauthorized, RegistryErrorCode.InvalidAccountOwner,
       RegistryErrorCode.NotInitialized, RegistryErrorCode.EntityRegistrarMismatch,
       RegistryErrorCode.MemberDelegateMismatch,
       RegistryErrorCode.MemberBeneficiaryMismatch,
       RegistryErrorCode.RegistrarVaultMismatch] :=
  ⟨rfl, by decide⟩

/-- Claim C4 (amended): the stake-intent access-control gate evaluates its
checks in order — depositor signer, registrar owner and initialization, entity
owner, initialization and registrar link, member owner, initialization, entity
link and authority, vault — the first failing check short-circuits with its
error (`Unauthorized`; `InvalidAccountOwner`/`NotInitialized` for the
registrar and entity records; `EntityRegistrarMismatch`; `InvalidOwner` — not
`InvalidAccountOwner` — for the member record's owner; `NotInitialized`;
`MemberEntityMismatch`; `MemberDelegateMismatch`/`MemberBeneficiaryMismatch`;
`RegistrarVaultMismatch`), a request passing all checks is accepted, and a
rejected request leaves the member and entity records returned by the handler
unchanged. -/
theorem c4_access_control_amended (req : stake_intent.AccessControlRequest)
    (er : RegistryError) (clock_acc : ClockAcc) (tr : Except TransferError Unit)
    (sys : Pubkey) (amount : Nat) :
    (¬ signerOk req →
      stake_intent.access_control req =
        Except.error (RegistryError.code RegistryErrorCode.Unauthorized)) ∧
    (signerOk req → ¬ registrarOwnerOk req →
      stake_intent.access_control req =
        Except.error (RegistryError.code RegistryErrorCode.InvalidAccountOwner)) ∧
    (signerOk req → registrarOwnerOk req → ¬ registrarInitOk req →
      stake_intent.access_control req =
        Except.error (RegistryError.code RegistryErrorCode.NotInitialized)) ∧
    (signerOk req → registrarOwnerOk req → registrarInitOk req →
      ¬ entityOwnerOk req →
      stake_intent.access_control req =
        Except.error (RegistryError.code RegistryErrorCode.InvalidAccountOwner)) ∧
    (signerOk req → registrarOwnerOk req → registrarInitOk req →
      entityOwnerOk req → ¬ entityInitOk req →
      stake_intent.access_control req =
        Except.error (RegistryError.code RegistryErrorCode.NotInitialized)) ∧
    (signerOk req → registrarOwnerOk req → registrarInitOk req →
      entityOwnerOk req → entityInitOk req → ¬ entityRegistrarOk req →
      stake_intent.access_control req =
        Except.error (RegistryError.code RegistryErrorCode.EntityRegistrarMismatch)) ∧
    (signerOk req → registrarOwnerOk req → registrarInitOk req →
      entityOwnerOk req → entityInitOk req → entityRegistrarOk req →
      ¬ memberOwnerOk req →
      stake_intent.access_control req =
        Except.error (RegistryError.code RegistryErrorCode.InvalidOwner)) ∧
    (signerOk req → registrarOwnerOk req → registrarInitOk req →
      entityOwnerOk req → entityInitOk req → entityRegistrarOk req →
      memberOwnerOk req → ¬ memberInitOk req →
      stake_intent.access_control req =
        Except.error (RegistryError.code RegistryErrorCode.NotInitialized)) ∧
    (signerOk req → registrarOwnerOk req → registrarInitOk req →
      entityOwnerOk req → entityInitOk req → entityRegistrarOk req →
      memberOwnerOk req → memberInitOk req → ¬ memberEntityOk req →
      stake_intent.access_control req =
        Except.error (RegistryError.code RegistryErrorCode.MemberEntityMismatch)) ∧
    (signerOk req → registrarOwnerOk req → registrarInitOk req →
      entityOwnerOk req → entityInitOk req → entityRegistrarOk req →
      memberOwnerOk req → memberInitOk req → memberEntityOk req →
      req.is_delegate = true →
      req.member_authority.key ≠ req.member_acc.data.books.delegate.owner →
      stake_intent.access_control req =
        Except.error (RegistryError.code RegistryErrorCode.MemberDelegateMismatch)) ∧
    (signerOk req → registrarOwnerOk req → registrarInitOk req →
      entityOwnerOk req → entityInitOk req → entityRegistrarOk req →
      memberOwnerOk req → memberInitOk req → memberEntityOk req →
      req.is_delegate = false →
      req.member_authority.key ≠ req.member_acc.data.beneficiary →
      stake_intent.access_control req =
        Except.error (RegistryError.code RegistryErrorCode.MemberBeneficiaryMismatch)) ∧
    (signerOk req → registrarOwnerOk req → registrarInitOk req →
      entityOwnerOk req → entityInitOk req → entityRegistrarOk req →
      memberOwnerOk req → memberInitOk req → memberEntityOk req →
      memberAuthorityOk req →
      req.is_mega = true →
      req.registrar_acc.data.mega_vault ≠ req.vault_acc.info.key →
      stake_intent.access_control req =
        Except.error (RegistryError.code RegistryErrorCode.RegistrarVaultMismatch)) ∧
    (signerOk req → registrarOwnerOk req → registrarInitOk req →
      entityOwnerOk req → entityInitOk req → entityRegistrarOk req →
      memberOwnerOk req → memberInitOk req → memberEntityOk req →
      memberAuthorityOk req →
      req.is_mega = false →
      req.registrar_acc.data.vault ≠ req.vault_acc.info.key →
      stake_intent.access_control req =
        Except.error (RegistryError.code RegistryErrorCode.RegistrarVaultMismatch)) ∧
    (signerOk req → registrarOwnerOk req → registrarInitOk req →
      entityOwnerOk req → entityInitOk req → entityRegistrarOk req →
      memberOwnerOk req → memberInitOk req → memberEntityOk req →
      memberAuthorityOk req → vaultOk req →
      stake_intent.access_control req = Except.ok ()) ∧
    (stake_intent.access_control req = Except.error er →
      stake_intent.handler sys req clock_acc tr amount =
        (Except.error er, req.member_acc.data, req.entity_acc.data)) := by
  refine ⟨?_, ?_, ?_, ?_, ?_, ?_, ?_, ?_, ?_, ?_, ?_, ?_, ?_, ?_, ?_⟩ <;>
    intros <;>
    first
      | (simp only [signerOk, registrarOwnerOk, registrarInitOk, entityOwnerOk,
           entityInitOk, entityRegistrarOk, memberOwnerOk, memberInitOk,
           memberEntityOk, memberAuthorityOk, vaultOk] at *
         first
           | (simp_all [stake_intent.access_control,
                Registry.access_control.registrar, Registry.access_control.entity,
                Registry.access_control.member, Registry.access_control.vault]
              done)
           | (cases hd : req.is_delegate <;>
                simp_all [stake_intent.access_control,
                  Registry.access_control.registrar,
                  Registry.access_control.entity, Registry.access_control.member,
                  Registry.access_control.vault] <;>
                done)
           | (cases hd : req.is_delegate <;> cases hg : req.is_mega <;>
                simp_all [stake_intent.access_control,
                  Registry.access_control.registrar,
                  Registry.access_control.entity, Registry.access_control.member,
                  Registry.access_control.vault] <;>
                done))
      | (simp_all [stake_intent.handler]
         done)

/-- Claim C4 (witness): the amended access-control theorem applied to concrete
requests — a request with no signer, a request whose member account has a
foreign owner, a fully valid request, and the handler on a rejected request
(records unchanged). -/
theorem c4_witness :
    stake_intent.access_control reqNoSigner =
      Except.error (RegistryError.code RegistryErrorCode.Unauthorized) ∧
    stake_intent.access_control reqBadMemberOwner =
      Except.error (RegistryError.code RegistryErrorCode.InvalidOwner) ∧
    stake_intent.access_control sampleReq = Except.ok () ∧
    stake_intent.handler 7 reqNoSigner ⟨⟨7, 99, false⟩, ⟨0⟩⟩ (Except.ok ()) 5 =
      (Except.error (RegistryError.code RegistryErrorCode.Unauthorized),
       reqNoSigner.member_acc.data, reqNoSigner.entity_acc.data) := by
  refine ⟨?_, ?_, ?_, ?_⟩
  · exact (c4_access_control_amended reqNoSigner
      (RegistryError.code RegistryErrorCode.Unauthorized) ⟨⟨7, 99, false⟩, ⟨0⟩⟩
      (Except.ok ()) 7 5).1 (by decide)
  · exact (c4_access_control_amended reqBadMemberOwner
      (RegistryError.code RegistryErrorCode.Unauthorized) ⟨⟨7, 99, false⟩, ⟨0⟩⟩
      (Except.ok ()) 7 5).2.2.2.2.2.2.1 (by decide) (by decide) (by decide)
      (by decide) (by decide) (by decide) (by decide)
  · exact (c4_access_control_amended sampleReq
      (RegistryError.code RegistryErrorCode.Unauthorized) ⟨⟨7, 99, false⟩, ⟨0⟩⟩
      (Except.ok ()) 7 5).2.2.2.2.2.2.2.2.2.2.2.2.2.1 (by decide) (by decide)
      (by decide) (by decide) (by decide) (by decide) (by decide) (by decide)
      (by decide) (by decide) (by decide)
  · exact (c4_access_control_amended reqNoSigner
      (RegistryError.code RegistryErrorCode.Unauthorized) ⟨⟨7, 99, false⟩, ⟨0⟩⟩
      (Except.ok ()) 7 5).2.2.2.2.2.2.2.2.2.2.2.2.2.2 rfl

end Registry
